import Mathlib

/-!
Verification of `dimos/simulation/stream.py` (class `SimulationStream`).

The module is a single-threaded driver: it resolves a camera in the
simulator's stage, binds a render product at the configured resolution,
launches an ffmpeg subprocess reading raw bgr24 frames on stdin, attaches
an annotator, then runs a step/fetch/convert/write loop until interrupted,
and finally releases resources in `cleanup`.

The embedding below models:
  * `StreamConfig` — the constructor's configuration fields;
  * the frame pipeline: `cvtColorRGBA2BGR` (OpenCV `COLOR_RGBA2BGR` on a
    height×width×4 array) and `tobytes` (row-major flattening);
  * `ffmpegCommand` — the exact argv list built in `_setup_ffmpeg`;
  * `initStream` — the `__init__` setup sequence (optional stage load,
    camera resolution, ffmpeg launch, annotator attach) over an
    environment recording which collaborator calls succeed;
  * `runLoop` / `streamRun` — the `stream` loop driven by a schedule of
    per-iteration events (successful step, failing pipe write, keyboard
    interrupt), with the `try/except KeyboardInterrupt/finally` shape;
  * `cleanup` — the resource release, with effective-release counters.
    CPython semantics make `file.close()` on a closed file and
    `Popen.wait()` on an exited process no-ops, so an effective release
    is counted only when the underlying state actually transitions.
-/

namespace SimulationStream

/-- Configuration fields stored by `__init__` (`self.width`, `self.height`,
`self.fps`, `self.camera_path`, `self.annotator_type`, `self.transport`,
`self.rtsp_url`). -/
structure StreamConfig where
  width : Nat
  height : Nat
  fps : Nat
  camera_path : String
  annotator_type : String
  transport : String
  rtsp_url : String
  deriving DecidableEq, Repr

/-- The default argument values of `SimulationStream.__init__`. -/
def defaultConfig : StreamConfig :=
  { width := 1920
    height := 1080
    fps := 60
    camera_path := "/World/alfred_parent_prim/alfred_base_descr/chest_cam_rgb_camera_frame/chest_cam"
    annotator_type := "rgb"
    transport := "tcp"
    rtsp_url := "rtsp://mediamtx:8554/stream" }

/-- One RGBA pixel as produced by the `rgb` annotator (a height×width×4
uint8 array; channel order R, G, B, A). -/
structure RGBA where
  r : Nat
  g : Nat
  b : Nat
  a : Nat
  deriving DecidableEq, Repr

/-- A frame from the annotator: a list of `height` rows of `width` RGBA
pixels. -/
abbrev RGBAFrame := List (List RGBA)

/-- `cv2.COLOR_RGBA2BGR` on one pixel: output channels are B, G, R taken
from the input's B, G, R; the alpha channel is dropped. -/
def pixelBGR (p : RGBA) : List Nat := [p.b, p.g, p.r]

/-- `cv2.cvtColor(frame, cv2.COLOR_RGBA2BGR)`: pointwise channel
reordering, preserving the row/column structure. -/
def cvtColorRGBA2BGR (f : RGBAFrame) : List (List (List Nat)) :=
  f.map (fun row => row.map pixelBGR)

/-- `ndarray.tobytes()` on a height×width×3 array: row-major flattening
into a flat byte sequence. -/
def tobytes (g : List (List (List Nat))) : List Nat :=
  (g.map List.flatten).flatten

/-- The bytes written to `self.proc.stdin` for one annotator frame:
`cv2.cvtColor(frame, cv2.COLOR_RGBA2BGR).tobytes()`. -/
def frameBytes (f : RGBAFrame) : List Nat :=
  tobytes (cvtColorRGBA2BGR f)

/-- Overwrite every pixel's alpha channel, leaving R, G, B untouched.
Used to express that alpha never influences the written bytes. -/
def setAlpha (n : Nat) (f : RGBAFrame) : RGBAFrame :=
  f.map (fun row => row.map (fun p => { p with a := n }))

/-- The resolution argument `f"{self.width}x{self.height}"` passed to
ffmpeg's `-s` flag. -/
def resolutionArg (w h : Nat) : String :=
  toString w ++ "x" ++ toString h

/-- The exact ffmpeg argv built in `_setup_ffmpeg`. -/
def ffmpegCommand (c : StreamConfig) : List String :=
  [ "ffmpeg"
  , "-y"
  , "-f", "rawvideo"
  , "-vcodec", "rawvideo"
  , "-pix_fmt", "bgr24"
  , "-s", resolutionArg c.width c.height
  , "-r", toString c.fps
  , "-i", "-"
  , "-an"
  , "-c:v", "h264_nvenc"
  , "-preset", "fast"
  , "-f", "rtsp"
  , "-rtsp_transport", c.transport
  , c.rtsp_url ]

theorem frameBytes_cons (row : List RGBA) (f : RGBAFrame) :
    frameBytes (row :: f) = (row.map pixelBGR).flatten ++ frameBytes f := by
  simp [frameBytes, cvtColorRGBA2BGR, tobytes]

theorem rowBytes_length (row : List RGBA) :
    ((row.map pixelBGR).flatten).length = row.length * 3 := by
  induction row with
  | nil => simp
  | cons p row ih =>
    simp [pixelBGR, ih]
    omega

/-- Byte size of one converted frame: rows × columns × 3. -/
theorem frameBytes_length (f : RGBAFrame) (w : Nat)
    (hw : ∀ row ∈ f, row.length = w) :
    (frameBytes f).length = f.length * w * 3 := by
  induction f with
  | nil => simp [frameBytes, cvtColorRGBA2BGR, tobytes]
  | cons row f ih =>
    have hrow : row.length = w := hw row (by simp)
    have hrest : ∀ r ∈ f, r.length = w := fun r hr => hw r (by simp [hr])
    rw [frameBytes_cons, List.length_append, rowBytes_length, ih hrest, hrow,
      List.length_cons]
    ring

theorem frameBytes_setAlpha (n : Nat) (f : RGBAFrame) :
    frameBytes (setAlpha n f) = frameBytes f := by
  simp [frameBytes, cvtColorRGBA2BGR, setAlpha, List.map_map]
  rfl

/-- Which collaborator calls succeed during `__init__`: whether a
`usd_path` argument was given, whether `open_stage`/`get_stage` succeeds,
whether `GetPrimAtPath(self.camera_path)` returns a valid prim, whether
`subprocess.Popen` succeeds, and whether
`AnnotatorRegistry.get_annotator`/`attach` succeeds. -/
structure SetupEnv where
  usdProvided : Bool
  sceneLoads : Bool
  cameraExists : Bool
  ffmpegLaunches : Bool
  annotatorOk : Bool
  deriving DecidableEq, Repr

/-- The spec's setup-time error taxonomy, mapped onto the exceptions the
source raises (or lets propagate) in `_load_stage`, `_setup_camera`,
`_setup_ffmpeg`, `_setup_annotator`. -/
inductive SetupError where
  | sceneLoad
  | cameraNotFound
  | encoderLaunch
  | annotatorError
  deriving DecidableEq, Repr

/-- The mutable attribute state of a `SimulationStream` instance, plus
effective-release counters. `procLaunched` models `hasattr(self, 'proc')`;
`stdinClosed` / `procWaited` / `simClosed` model the underlying OS-level
state of `self.proc.stdin`, the child process, and the simulator.
An `Eff` counter is incremented only when a release actually transitions
the underlying state (CPython's `file.close()` and `Popen.wait()` are
documented no-ops on an already closed file / already reaped process). -/
structure SimState where
  config : StreamConfig
  renderBound : Bool
  renderResolution : Nat × Nat
  procLaunched : Bool
  procCommand : List String
  annotatorAttached : Bool
  stdinClosed : Bool
  procWaited : Bool
  simClosed : Bool
  stdinCloseEff : Nat
  procWaitEff : Nat
  simCloseEff : Nat
  deriving DecidableEq, Repr

/-- The attribute state right after the config assignments at the top of
`__init__`, before any resource is acquired. -/
def initialState (cfg : StreamConfig) : SimState :=
  { config := cfg
    renderBound := false
    renderResolution := (0, 0)
    procLaunched := false
    procCommand := []
    annotatorAttached := false
    stdinClosed := false
    procWaited := false
    simClosed := false
    stdinCloseEff := 0
    procWaitEff := 0
    simCloseEff := 0 }

/-- The `__init__` setup sequence: optional `_load_stage`, then
`_setup_camera`, `_setup_ffmpeg`, `_setup_annotator`, in that order.
There is no `try`/`finally` in `__init__`: on failure the partially
mutated state is returned together with the propagating error, and no
release is performed. -/
def initStream (cfg : StreamConfig) (env : SetupEnv) :
    SimState × Option SetupError :=
  let s := initialState cfg
  if env.usdProvided && !env.sceneLoads then (s, some .sceneLoad)
  else if !env.cameraExists then (s, some .cameraNotFound)
  else
    let s := { s with renderBound := true
                      renderResolution := (cfg.width, cfg.height) }
    if !env.ffmpegLaunches then (s, some .encoderLaunch)
    else
      let s := { s with procLaunched := true
                        procCommand := ffmpegCommand cfg }
      if !env.annotatorOk then (s, some .annotatorError)
      else ({ s with annotatorAttached := true }, none)

/-- `SimulationStream.cleanup`: `if hasattr(self, 'proc'):
self.proc.stdin.close(); self.proc.wait()` then `self.simulator.close()`.
Total (raises nothing): each release is a no-op when the underlying
resource is already released. -/
def cleanup (s : SimState) : SimState :=
  let s1 :=
    if s.procLaunched then
      let sa :=
        if s.stdinClosed then s
        else { s with stdinClosed := true, stdinCloseEff := s.stdinCloseEff + 1 }
      if sa.procWaited then sa
      else { sa with procWaited := true, procWaitEff := sa.procWaitEff + 1 }
    else s
  if s1.simClosed then s1
  else { s1 with simClosed := true, simCloseEff := s1.simCloseEff + 1 }

/-- The state of an instance reflects a completed cleanup: every acquired
resource has been released. -/
def cleanupRan (s : SimState) : Prop :=
  (s.procLaunched = true → s.stdinClosed = true ∧ s.procWaited = true) ∧
  s.simClosed = true

instance (s : SimState) : Decidable (cleanupRan s) := by
  unfold cleanupRan; infer_instance

/-- The loop-local observable state of `stream`: the `frame_count`
counter, the byte strings written to `self.proc.stdin` (in order), and
the number of throughput reports printed so far. -/
structure LoopState where
  frame_count : Nat
  written : List (List Nat)
  reports : Nat
  deriving DecidableEq, Repr

/-- Loop state at `stream` entry: `frame_count = 0`, nothing written,
no report printed. -/
def initLoop : LoopState :=
  { frame_count := 0, written := [], reports := 0 }

/-- One scheduled iteration of the `while True` loop: either the step,
fetch, convert and write all succeed on annotator frame `f`; or the
`self.proc.stdin.write` raises (closed pipe / dead encoder) on frame `f`;
or a `KeyboardInterrupt` is delivered. -/
inductive IterInput where
  | step (f : RGBAFrame)
  | stepWriteFail (f : RGBAFrame)
  | interrupt
  deriving Repr

/-- How the `while True` loop left off under a finite schedule. -/
inductive LoopExit where
  | running
  | interrupted
  | writeError
  deriving DecidableEq, Repr

/-- How the whole `stream()` call ends: still looping (schedule
exhausted), returned normally (interrupt caught), or re-raised the write
error after `finally`. -/
inductive StreamOutcome where
  | stillRunning
  | returnedNormally
  | raisedWriteError
  deriving DecidableEq, Repr

/-- The body of one successful iteration: convert `f`, write the bytes,
`frame_count += 1`, and print the throughput report when
`frame_count % 100 == 0`. -/
def loopBodyOk (st : LoopState) (f : RGBAFrame) : LoopState :=
  let fc := st.frame_count + 1
  { frame_count := fc
    written := st.written ++ [frameBytes f]
    reports := st.reports + (if fc % 100 = 0 then 1 else 0) }

/-- The `while True` loop over a finite schedule of iteration events.
An interrupt or write failure ends the loop at once; exhausting the
schedule means the loop is still running. -/
def runLoop (st : LoopState) : List IterInput → LoopState × LoopExit
  | [] => (st, .running)
  | .interrupt :: _ => (st, .interrupted)
  | .stepWriteFail _ :: _ => (st, .writeError)
  | .step f :: rest => runLoop (loopBodyOk st f) rest

/-- The loop state after a run of successful iterations. -/
def okAdvance (st : LoopState) (frames : List RGBAFrame) : LoopState :=
  frames.foldl loopBodyOk st

/-- `SimulationStream.stream`: run the loop inside
`try ... except KeyboardInterrupt ... finally self.cleanup()`.
A `KeyboardInterrupt` is swallowed (normal return); a write failure
re-raises after cleanup; in both cases `finally` has applied `cleanup`
to the instance state. -/
def streamRun (s : SimState) (inputs : List IterInput) :
    SimState × LoopState × StreamOutcome :=
  match runLoop initLoop inputs with
  | (st, .running) => (s, st, .stillRunning)
  | (st, .interrupted) => (cleanup s, st, .returnedNormally)
  | (st, .writeError) => (cleanup s, st, .raisedWriteError)

theorem okAdvance_nil (st : LoopState) : okAdvance st [] = st := rfl

theorem okAdvance_cons (st : LoopState) (f : RGBAFrame) (frames : List RGBAFrame) :
    okAdvance st (f :: frames) = okAdvance (loopBodyOk st f) frames := rfl

theorem runLoop_steps (frames : List RGBAFrame) (st : LoopState) :
    runLoop st (frames.map IterInput.step) = (okAdvance st frames, .running) := by
  induction frames generalizing st with
  | nil => rfl
  | cons f frames ih => simp [runLoop, okAdvance_cons, ih]

theorem runLoop_steps_append (frames : List RGBAFrame) (st : LoopState)
    (l : List IterInput) :
    runLoop st (frames.map IterInput.step ++ l) = runLoop (okAdvance st frames) l := by
  induction frames generalizing st with
  | nil => rfl
  | cons f frames ih => simp [runLoop, okAdvance_cons, ih]

theorem okAdvance_written (frames : List RGBAFrame) (st : LoopState) :
    (okAdvance st frames).written = st.written ++ frames.map frameBytes := by
  induction frames generalizing st with
  | nil => simp [okAdvance_nil]
  | cons f frames ih => simp [okAdvance_cons, ih, loopBodyOk]

theorem okAdvance_frame_count (frames : List RGBAFrame) (st : LoopState) :
    (okAdvance st frames).frame_count = st.frame_count + frames.length := by
  induction frames generalizing st with
  | nil => simp [okAdvance_nil]
  | cons f frames ih => simp [okAdvance_cons, ih, loopBodyOk]; omega

theorem succ_div_100 (n : Nat) :
    (n + 1) / 100 = n / 100 + (if (n + 1) % 100 = 0 then 1 else 0) := by
  by_cases h : (n + 1) % 100 = 0 <;> simp [h] <;> omega

theorem okAdvance_reports (frames : List RGBAFrame) (st : LoopState)
    (hinv : st.reports = st.frame_count / 100) :
    (okAdvance st frames).reports = (okAdvance st frames).frame_count / 100 := by
  induction frames generalizing st with
  | nil => simpa [okAdvance_nil] using hinv
  | cons f frames ih =>
    rw [okAdvance_cons]
    exact ih _ (by simp [loopBodyOk, hinv, succ_div_100])

theorem cleanup_config (s : SimState) : (cleanup s).config = s.config := by
  cases hp : s.procLaunched <;> cases hc : s.stdinClosed <;>
    cases hw : s.procWaited <;> cases hs : s.simClosed <;>
      simp [cleanup, hp, hc, hw, hs]

theorem cleanup_ran (s : SimState) : cleanupRan (cleanup s) := by
  cases hp : s.procLaunched <;> cases hc : s.stdinClosed <;>
    cases hw : s.procWaited <;> cases hs : s.simClosed <;>
      simp [cleanup, cleanupRan, hp, hc, hw, hs]

/-- A concrete 1×1 annotator frame used to instantiate hypotheses. -/
def sampleFrame : RGBAFrame := [[⟨10, 20, 30, 40⟩]]

/-- C1: a schedule of N successful simulation steps writes exactly N
frames to the encoder's stdin — the written list is precisely the
per-step converted frames, in order, with no skips and no extras — and,
when every annotator frame is height×width RGBA, each written byte
string has length width × height × 3. -/
theorem loop_writes_one_frame_per_step
    (frames : List RGBAFrame) (width height : Nat)
    (hdim : ∀ f ∈ frames, f.length = height ∧ ∀ row ∈ f, row.length = width) :
    runLoop initLoop (frames.map IterInput.step) =
      (okAdvance initLoop frames, LoopExit.running) ∧
    (okAdvance initLoop frames).written = frames.map frameBytes ∧
    (okAdvance initLoop frames).written.length = frames.length ∧
    ∀ b ∈ (okAdvance initLoop frames).written, b.length = width * height * 3 := by
  refine ⟨runLoop_steps frames initLoop, ?_, ?_, ?_⟩
  · simp [okAdvance_written, initLoop]
  · simp [okAdvance_written, initLoop]
  · intro b hb
    rw [okAdvance_written] at hb
    simp only [initLoop, List.nil_append, List.mem_map] at hb
    obtain ⟨f, hf, rfl⟩ := hb
    rw [frameBytes_length f width (hdim f hf).2, (hdim f hf).1]
    ring

theorem loop_writes_one_frame_per_step_witness :
    (∀ f ∈ [sampleFrame], f.length = 1 ∧ ∀ row ∈ f, row.length = 1) ∧
    (∀ b ∈ (okAdvance initLoop [sampleFrame]).written, b.length = 1 * 1 * 3) :=
  ⟨by decide, (loop_writes_one_frame_per_step [sampleFrame] 1 1 (by decide)).2.2.2⟩

/-- C2 (amended): `__init__` has no cleanup on its error paths — when
attaching the annotator fails after the encoder process was launched, the
error propagates with the encoder process still running, its stdin open,
the process not waited on, and the simulator not closed. -/
theorem setup_error_propagates_without_cleanup (cfg : StreamConfig) :
    (initStream cfg ⟨false, true, true, true, false⟩).2 = some SetupError.annotatorError ∧
    (initStream cfg ⟨false, true, true, true, false⟩).1.procLaunched = true ∧
    (initStream cfg ⟨false, true, true, true, false⟩).1.stdinClosed = false ∧
    (initStream cfg ⟨false, true, true, true, false⟩).1.procWaited = false ∧
    (initStream cfg ⟨false, true, true, true, false⟩).1.simClosed = false := by
  refine ⟨rfl, rfl, rfl, rfl, rfl⟩

/-- C2 counterexample: with the default configuration, an annotator
attach failure during setup propagates while no cleanup has run — in
particular the launched encoder process is left unreleased, refuting the
claim that every fatal exit path runs cleanup first. -/
theorem setup_error_cleanup_counterexample :
    (initStream defaultConfig ⟨false, true, true, true, false⟩).2 =
      some SetupError.annotatorError ∧
    (initStream defaultConfig ⟨false, true, true, true, false⟩).1.procLaunched = true ∧
    ¬ cleanupRan (initStream defaultConfig ⟨false, true, true, true, false⟩).1 := by
  refine ⟨rfl, rfl, ?_⟩
  intro h
  exact Bool.false_ne_true ((h.1 rfl).1.symm ▸ rfl)

/-- C3: `cleanup` is idempotent — a second call is a fixpoint — and each
effective release happens at most once: the stdin close and process wait
fire only when the process was launched and the resource is still held,
and the simulator close fires only when the simulator is still open;
resources never acquired are skipped. -/
theorem cleanup_idempotent (s : SimState) :
    cleanup (cleanup s) = cleanup s ∧
    (cleanup s).stdinCloseEff =
      s.stdinCloseEff + (if s.procLaunched && !s.stdinClosed then 1 else 0) ∧
    (cleanup s).procWaitEff =
      s.procWaitEff + (if s.procLaunched && !s.procWaited then 1 else 0) ∧
    (cleanup s).simCloseEff =
      s.simCloseEff + (if !s.simClosed then 1 else 0) := by
  cases hp : s.procLaunched <;> cases hc : s.stdinClosed <;>
    cases hw : s.procWaited <;> cases hs : s.simClosed <;>
      simp [cleanup, hp, hc, hw, hs]

/-- C4: when the camera prim is absent, `__init__` raises the
camera-not-found error from `_setup_camera`, and since that call precedes
`_setup_ffmpeg`, no encoder process has been launched when the error
propagates (for any outcome of the later setup calls). -/
theorem camera_not_found_no_encoder (cfg : StreamConfig) (u e2 e3 : Bool) :
    (initStream cfg ⟨u, true, false, e2, e3⟩).2 = some SetupError.cameraNotFound ∧
    (initStream cfg ⟨u, true, false, e2, e3⟩).1.procLaunched = false := by
  cases u <;> exact ⟨rfl, rfl⟩

/-- C5: if the pipe write fails at some iteration (after any run of
successful iterations), the loop stops there with nothing further
written, `finally` applies `cleanup` to the instance, the cleanup
completes (every acquired resource released), and `stream` re-raises the
write error to its caller. -/
theorem write_failure_cleans_up_and_propagates (s : SimState)
    (pre : List RGBAFrame) (f : RGBAFrame) (rest : List IterInput) :
    streamRun s (pre.map IterInput.step ++ IterInput.stepWriteFail f :: rest) =
      (cleanup s, okAdvance initLoop pre, StreamOutcome.raisedWriteError) ∧
    cleanupRan
      (streamRun s (pre.map IterInput.step ++ IterInput.stepWriteFail f :: rest)).1 ∧
    (streamRun s (pre.map IterInput.step ++ IterInput.stepWriteFail f :: rest)).2.1.written =
      pre.map frameBytes := by
  have h : streamRun s (pre.map IterInput.step ++ IterInput.stepWriteFail f :: rest) =
      (cleanup s, okAdvance initLoop pre, StreamOutcome.raisedWriteError) := by
    simp [streamRun, runLoop_steps_append, runLoop]
  refine ⟨h, ?_, ?_⟩
  · rw [h]; exact cleanup_ran s
  · rw [h]; simp [okAdvance_written, initLoop]

/-- C7: a keyboard interrupt delivered at an iteration boundary (after
any run of successful iterations) ends the loop without being treated as
an error: `cleanup` runs to completion and `stream` returns normally,
propagating no exception. -/
theorem interrupt_returns_normally (s : SimState)
    (pre : List RGBAFrame) (rest : List IterInput) :
    streamRun s (pre.map IterInput.step ++ IterInput.interrupt :: rest) =
      (cleanup s, okAdvance initLoop pre, StreamOutcome.returnedNormally) ∧
    cleanupRan
      (streamRun s (pre.map IterInput.step ++ IterInput.interrupt :: rest)).1 := by
  have h : streamRun s (pre.map IterInput.step ++ IterInput.interrupt :: rest) =
      (cleanup s, okAdvance initLoop pre, StreamOutcome.returnedNormally) := by
    simp [streamRun, runLoop_steps_append, runLoop]
  exact ⟨h, h ▸ cleanup_ran s⟩

/-- C6: the throughput report fires exactly when `frame_count` becomes a
positive multiple of 100, so a run of N successful iterations prints
exactly ⌊N / 100⌋ reports. -/
theorem throughput_report_every_100 (frames : List RGBAFrame) :
    (runLoop initLoop (frames.map IterInput.step)).1.reports =
      frames.length / 100 := by
  rw [runLoop_steps]
  have h := okAdvance_reports frames initLoop (by simp [initLoop])
  rw [h, okAdvance_frame_count]
  simp [initLoop]

/-- C8: the configuration fields are never mutated after construction:
`__init__` stores exactly the given configuration, and neither the
streaming loop (on any schedule and any exit) nor `cleanup` changes it. -/
theorem config_never_mutated (cfg : StreamConfig) (env : SetupEnv)
    (s : SimState) (inputs : List IterInput) :
    (initStream cfg env).1.config = cfg ∧
    (streamRun s inputs).1.config = s.config ∧
    (cleanup s).config = s.config := by
  refine ⟨?_, ?_, cleanup_config s⟩
  · cases env with
    | mk u l c ff a =>
      cases u <;> cases l <;> cases c <;> cases ff <;> cases a <;>
        simp [initStream, initialState]
  · rcases h : runLoop initLoop inputs with ⟨st, ex⟩
    cases ex <;> simp [streamRun, h, cleanup_config]

/-- C9: the ffmpeg invocation reflects the configuration exactly — raw
video on stdin in the fixed bgr24 pixel format, the `-s` flag carrying
the configured width×height (identical to the resolution bound to the
render product during setup), the configured frame rate after `-r`, the
configured transport after `-rtsp_transport`, and the configured
destination URL as the final argument. -/
theorem ffmpeg_command_reflects_config (cfg : StreamConfig) :
    (initStream cfg ⟨false, true, true, true, true⟩).2 = none ∧
    (initStream cfg ⟨false, true, true, true, true⟩).1.procCommand = ffmpegCommand cfg ∧
    (initStream cfg ⟨false, true, true, true, true⟩).1.renderResolution =
      (cfg.width, cfg.height) ∧
    (ffmpegCommand cfg)[2]? = some "-f" ∧
    (ffmpegCommand cfg)[3]? = some "rawvideo" ∧
    (ffmpegCommand cfg)[6]? = some "-pix_fmt" ∧
    (ffmpegCommand cfg)[7]? = some "bgr24" ∧
    (ffmpegCommand cfg)[8]? = some "-s" ∧
    (ffmpegCommand cfg)[9]? = some (resolutionArg cfg.width cfg.height) ∧
    (ffmpegCommand cfg)[10]? = some "-r" ∧
    (ffmpegCommand cfg)[11]? = some (toString cfg.fps) ∧
    (ffmpegCommand cfg)[13]? = some "-" ∧
    (ffmpegCommand cfg)[21]? = some "-rtsp_transport" ∧
    (ffmpegCommand cfg)[22]? = some cfg.transport ∧
    (ffmpegCommand cfg)[23]? = some cfg.rtsp_url := by
  exact ⟨rfl, rfl, rfl, rfl, rfl, rfl, rfl, rfl, rfl, rfl, rfl, rfl, rfl, rfl, rfl⟩

/-- C10: the per-frame conversion keeps the pixel grid (same rows and
columns), maps each RGBA pixel to its three B, G, R channel values in
that order, yields exactly height × width × 3 bytes, and the alpha
channel never influences the written bytes. -/
theorem conversion_drops_alpha (f : RGBAFrame) (width height : Nat)
    (hh : f.length = height) (hw : ∀ row ∈ f, row.length = width) :
    (cvtColorRGBA2BGR f).length = height ∧
    (∀ row ∈ cvtColorRGBA2BGR f, row.length = width) ∧
    (∀ (i j : Nat), ((cvtColorRGBA2BGR f)[i]?.bind fun row => row[j]?) =
      (f[i]?.bind fun row => row[j]?).map pixelBGR) ∧
    (frameBytes f).length = height * width * 3 ∧
    (∀ n, frameBytes (setAlpha n f) = frameBytes f) := by
  refine ⟨by simp [cvtColorRGBA2BGR, hh], ?_, ?_, ?_, fun n => frameBytes_setAlpha n f⟩
  · intro row hrow
    simp only [cvtColorRGBA2BGR, List.mem_map] at hrow
    obtain ⟨r, hr, rfl⟩ := hrow
    simp [hw r hr]
  · intro i j
    simp only [cvtColorRGBA2BGR, List.getElem?_map]
    cases f[i]? with
    | none => rfl
    | some row => simp [List.getElem?_map]
  · rw [frameBytes_length f width hw, hh]

theorem conversion_drops_alpha_witness :
    (sampleFrame.length = 1 ∧ ∀ row ∈ sampleFrame, row.length = 1) ∧
    (frameBytes sampleFrame).length = 1 * 1 * 3 :=
  ⟨⟨by decide, by decide⟩,
    (conversion_drops_alpha sampleFrame 1 1 (by decide) (by decide)).2.2.2.1⟩

end SimulationStream
